import Mathlib

/-!
Verification of the Approval Likelihood Evaluator of the
Loan-Approval-Prediction repository (`src/lib/ml/loan-predictor.ts`).

Numbers are embedded as rationals (`ℚ`): every arithmetic step of the
scorer (band lookups, weighted sum, clamping, rounding) is exact rational
arithmetic, so `ℚ` is a faithful shallow embedding.  The only
transcendental step, the sigmoid `1 / (1 + exp (-(score - 650) / 200))`,
is embedded over `ℝ` with `Real.exp`.
-/

namespace LoanPredictor

/-- Loan purposes accepted by `LoanPredictionInputSchema` (`z.enum`). -/
inductive LoanPurpose where
  | home_loan | auto_loan | personal_loan | debt_consolidation | business_loan
deriving DecidableEq, Repr

/-- Home-ownership values accepted by `LoanPredictionInputSchema`. -/
inductive HomeOwnership where
  | own | rent | mortgage
deriving DecidableEq, Repr

/-- Verification-status values accepted by `LoanPredictionInputSchema`. -/
inductive VerificationStatus where
  | verified | source_verified | not_verified
deriving DecidableEq, Repr

/-- The two decision labels of `PredictionResult.prediction`. -/
inductive Decision where
  | approved | denied
deriving DecidableEq, Repr

/-- Confidence tiers of `PredictionResult.confidence`. -/
inductive Confidence where
  | high | medium | low
deriving DecidableEq, Repr

/-- The `LoanPredictionInput` record (the typed shape of the zod schema). -/
structure LoanPredictionInput where
  creditScore : ℚ
  annualIncome : ℚ
  employmentLength : ℚ
  loanAmount : ℚ
  loanPurpose : LoanPurpose
  debtToIncome : ℚ
  hasDerogatory : Bool
  delinquenciesLast2Years : ℚ
  inquiriesLast6Months : ℚ
  homeOwnership : HomeOwnership
  verificationStatus : VerificationStatus
deriving DecidableEq, Repr

/-- The `FeatureImportance` weight record (`this.modelWeights`). -/
structure FeatureImportance where
  creditScore : ℚ
  debtToIncome : ℚ
  annualIncome : ℚ
  employmentLength : ℚ
  hasDerogatory : ℚ
  delinquenciesLast2Years : ℚ
  inquiriesLast6Months : ℚ
  loanAmount : ℚ
  homeOwnership : ℚ
  verificationStatus : ℚ
deriving DecidableEq, Repr

/-- The initial weight table set in the `LoanPredictionService` constructor. -/
def initialModelWeights : FeatureImportance where
  creditScore := 0.35
  debtToIncome := 0.25
  annualIncome := 0.15
  employmentLength := 0.08
  hasDerogatory := 0.07
  delinquenciesLast2Years := 0.05
  inquiriesLast6Months := 0.03
  loanAmount := 0.02
  homeOwnership := 0.005
  verificationStatus := 0.005

/-- Sum of the ten entries of a `FeatureImportance` record. -/
def sumWeights (w : FeatureImportance) : ℚ :=
  w.creditScore + w.debtToIncome + w.annualIncome + w.employmentLength +
  w.hasDerogatory + w.delinquenciesLast2Years + w.inquiriesLast6Months +
  w.loanAmount + w.homeOwnership + w.verificationStatus

/-- Field-validation issues produced by `validateInput` / zod `parse`: the
names of the fields whose schema constraint fails, in schema order.  The
schema requires `creditScore` in [300, 850], `annualIncome` strictly
positive, `employmentLength ≥ 0`, `loanAmount` strictly positive,
`debtToIncome` in [0, 1], `delinquenciesLast2Years ≥ 0` and
`inquiriesLast6Months ≥ 0`; the three enum fields are already typed. -/
def fieldIssues (inp : LoanPredictionInput) : List String :=
  (if 300 ≤ inp.creditScore then [] else ["creditScore"]) ++
  (if inp.creditScore ≤ 850 then [] else ["creditScore"]) ++
  (if 0 < inp.annualIncome then [] else ["annualIncome"]) ++
  (if 0 ≤ inp.employmentLength then [] else ["employmentLength"]) ++
  (if 0 < inp.loanAmount then [] else ["loanAmount"]) ++
  (if 0 ≤ inp.debtToIncome then [] else ["debtToIncome"]) ++
  (if inp.debtToIncome ≤ 1 then [] else ["debtToIncome"]) ++
  (if 0 ≤ inp.delinquenciesLast2Years then [] else ["delinquenciesLast2Years"]) ++
  (if 0 ≤ inp.inquiriesLast6Months then [] else ["inquiriesLast6Months"])

/-- An input passes schema validation when it produces no field issues. -/
def ValidInput (inp : LoanPredictionInput) : Prop := fieldIssues inp = []

instance : DecidablePred ValidInput := fun inp =>
  inferInstanceAs (Decidable (fieldIssues inp = []))

/-- The `validateInput` method: zod `parse`, surfacing the issue list on
failure and the input unchanged on success. -/
def validateInput (inp : LoanPredictionInput) :
    Except (List String) LoanPredictionInput :=
  if fieldIssues inp = [] then .ok inp else .error (fieldIssues inp)

/-- Credit-score band (`calculateCreditScoreComponent`). -/
def calculateCreditScoreComponent (creditScore : ℚ) : ℚ :=
  if 750 ≤ creditScore then 1.0
  else if 700 ≤ creditScore then 0.8
  else if 650 ≤ creditScore then 0.6
  else if 600 ≤ creditScore then 0.4
  else if 550 ≤ creditScore then 0.2
  else 0.1

/-- Debt-to-income band (`calculateDebtToIncomeComponent`). -/
def calculateDebtToIncomeComponent (dti : ℚ) : ℚ :=
  if dti ≤ 0.15 then 1.0
  else if dti ≤ 0.25 then 0.8
  else if dti ≤ 0.35 then 0.6
  else if dti ≤ 0.43 then 0.4
  else 0.1

/-- Annual-income band (`calculateIncomeComponent`). -/
def calculateIncomeComponent (income : ℚ) : ℚ :=
  if 100000 ≤ income then 1.0
  else if 75000 ≤ income then 0.8
  else if 50000 ≤ income then 0.6
  else if 35000 ≤ income then 0.4
  else if 25000 ≤ income then 0.2
  else 0.1

/-- Employment-length band (`calculateEmploymentComponent`). -/
def calculateEmploymentComponent (years : ℚ) : ℚ :=
  if 5 ≤ years then 1.0
  else if 3 ≤ years then 0.8
  else if 2 ≤ years then 0.6
  else if 1 ≤ years then 0.4
  else 0.2

/-- Loan-amount band relative to income (`calculateLoanAmountComponent`). -/
def calculateLoanAmountComponent (loanAmount income : ℚ) : ℚ :=
  if loanAmount / income ≤ 0.2 then 1.0
  else if loanAmount / income ≤ 0.3 then 0.8
  else if loanAmount / income ≤ 0.4 then 0.6
  else if loanAmount / income ≤ 0.5 then 0.4
  else 0.2

/-- Home-ownership bonus (`calculateHomeOwnershipBonus`). -/
def calculateHomeOwnershipBonus : HomeOwnership → ℚ
  | .own => 20
  | .mortgage => 15
  | .rent => 5

/-- Verification-status bonus (`calculateVerificationBonus`). -/
def calculateVerificationBonus : VerificationStatus → ℚ
  | .verified => 15
  | .source_verified => 10
  | .not_verified => 0

/-- The raw weighted score of `predict` before clamping (the parenthesised
weighted sum of components and penalties, multiplied by 1000). -/
def rawScore (w : FeatureImportance) (inp : LoanPredictionInput) : ℚ :=
  (calculateCreditScoreComponent inp.creditScore * w.creditScore +
   calculateDebtToIncomeComponent inp.debtToIncome * w.debtToIncome +
   calculateIncomeComponent inp.annualIncome * w.annualIncome +
   calculateEmploymentComponent inp.employmentLength * w.employmentLength +
   (if inp.hasDerogatory then (-50 : ℚ) else 0) * w.hasDerogatory +
   (inp.delinquenciesLast2Years * (-10)) * w.delinquenciesLast2Years +
   (inp.inquiriesLast6Months * (-5)) * w.inquiriesLast6Months +
   calculateLoanAmountComponent inp.loanAmount inp.annualIncome * w.loanAmount +
   calculateHomeOwnershipBonus inp.homeOwnership * w.homeOwnership +
   calculateVerificationBonus inp.verificationStatus * w.verificationStatus) * 1000

/-- The clamped score `Math.max(0, Math.min(1000, rawScore))`. -/
def clampedScore (w : FeatureImportance) (inp : LoanPredictionInput) : ℚ :=
  max 0 (min 1000 (rawScore w inp))

/-- JavaScript `Math.round`: round half up, i.e. the floor of `x + 1/2`. -/
def mathRound (x : ℚ) : ℤ := ⌊x + 1/2⌋

/-- The sigmoid of `scoreToTprobability`: probability
`1 / (1 + exp (-(score - 650) / 200))`, over the reals. -/
noncomputable def scoreToTprobability (score : ℚ) : ℝ :=
  1 / (1 + Real.exp (-(((score : ℝ) - 650) / 200)))

/-- The decision line of `predict`: `probability >= 0.5 ? approved : denied`,
applied to the probability of the clamped (unrounded) score. -/
noncomputable def decisionFor (score : ℚ) : Decision :=
  if (0.5 : ℝ) ≤ scoreToTprobability score then .approved else .denied

/-- Confidence tier (`calculateConfidence`): count the strong-signal
predicates that hold and band the count. -/
def calculateConfidence (score : ℚ) (input : LoanPredictionInput) : Confidence :=
  confBand ((if 750 ≤ input.creditScore ∨ input.creditScore ≤ 550 then 1 else 0) +
    (if input.debtToIncome ≤ 0.2 ∨ 0.4 ≤ input.debtToIncome then 1 else 0) +
    (if 100000 ≤ input.annualIncome ∨ input.annualIncome ≤ 30000 then 1 else 0) +
    (if 5 ≤ input.employmentLength ∨ input.employmentLength < 1 then 1 else 0) +
    (if input.hasDerogatory then 1 else 0) +
    (if 3 ≤ input.delinquenciesLast2Years then 1 else 0) +
    (if 800 ≤ score ∨ score ≤ 400 then 1 else 0))
where
  /-- Band the factor count: `≥ 4 → high`, `≥ 2 → medium`, else `low`. -/
  confBand (confidenceFactors : ℕ) : Confidence :=
    if 4 ≤ confidenceFactors then .high
    else if 2 ≤ confidenceFactors then .medium
    else .low

/-- Human-readable reasons (`generateReasons`), keyed on the decision. -/
def generateReasons (input : LoanPredictionInput) (_score : ℚ) :
    Decision → List String
  | .approved =>
    (if 750 ≤ input.creditScore then
        ["Excellent credit score demonstrates strong payment history"]
      else if 700 ≤ input.creditScore then
        ["Good credit score indicates reliable payment behavior"]
      else []) ++
    (if input.debtToIncome ≤ 0.25 then
        ["Low debt-to-income ratio shows strong financial capacity"] else []) ++
    (if 75000 ≤ input.annualIncome then
        ["High annual income provides strong repayment ability"] else []) ++
    (if 3 ≤ input.employmentLength then
        ["Stable employment history reduces risk"] else []) ++
    (if input.hasDerogatory then []
      else ["Clean credit history with no major derogatory marks"]) ++
    (if input.homeOwnership = .own then
        ["Home ownership indicates financial stability"] else []) ++
    (if input.verificationStatus = .verified then
        ["Verified income information increases confidence"] else [])
  | .denied =>
    (if input.creditScore < 600 then
        ["Credit score below acceptable threshold indicates high risk"] else []) ++
    (if 0.43 < input.debtToIncome then
        ["High debt-to-income ratio exceeds lending guidelines"] else []) ++
    (if input.annualIncome < 30000 then
        ["Low income may not support loan repayment"] else []) ++
    (if input.hasDerogatory then
        ["Derogatory marks on credit report raise concerns"] else []) ++
    (if 2 ≤ input.delinquenciesLast2Years then
        ["Recent payment delinquencies indicate repayment risk"] else []) ++
    (if 5 ≤ input.inquiriesLast6Months then
        ["Multiple recent credit inquiries suggest financial stress"] else []) ++
    (if input.employmentLength < 1 then
        ["Short employment history increases income stability risk"] else []) ++
    (if 0.5 < input.loanAmount / input.annualIncome then
        ["Loan amount is too high relative to annual income"] else [])

/-- Risk-factor strings (`identifyRiskFactors`). -/
def identifyRiskFactors (input : LoanPredictionInput) : List String :=
  (if input.creditScore < 650 then ["Below-average credit score"] else []) ++
  (if 0.35 < input.debtToIncome then ["High debt-to-income ratio"] else []) ++
  (if input.hasDerogatory then ["Derogatory credit marks"] else []) ++
  (if 0 < input.delinquenciesLast2Years then ["Recent payment delinquencies"] else []) ++
  (if 3 < input.inquiriesLast6Months then ["Multiple recent credit inquiries"] else []) ++
  (if input.employmentLength < 2 then ["Short employment history"] else []) ++
  (if input.annualIncome < 40000 then ["Lower income level"] else []) ++
  (if input.verificationStatus = .not_verified then ["Unverified income"] else [])

/-- Positive-factor strings (`identifyPositiveFactors`). -/
def identifyPositiveFactors (input : LoanPredictionInput) : List String :=
  (if 750 ≤ input.creditScore then ["Excellent credit score"] else []) ++
  (if 700 ≤ input.creditScore ∧ input.creditScore < 750 then
      ["Good credit score"] else []) ++
  (if input.debtToIncome ≤ 0.25 then ["Low debt-to-income ratio"] else []) ++
  (if 75000 ≤ input.annualIncome then ["High annual income"] else []) ++
  (if 5 ≤ input.employmentLength then ["Long employment history"] else []) ++
  (if input.hasDerogatory then [] else ["Clean credit history"]) ++
  (if input.delinquenciesLast2Years = 0 then ["No recent delinquencies"] else []) ++
  (if input.homeOwnership = .own then ["Home ownership"] else []) ++
  (if input.verificationStatus = .verified then ["Verified income"] else [])

/-- The `PredictionResult` record returned by `predict`. -/
structure PredictionResult where
  prediction : Decision
  probability : ℝ
  confidence : Confidence
  score : ℤ
  reasons : List String
  featureImportance : FeatureImportance
  riskFactors : List String
  positiveFactors : List String

/-- The body of `predict` after successful validation: assemble the
`PredictionResult` from the clamped score, given the weight table `w`. -/
noncomputable def predictValid (w : FeatureImportance)
    (inp : LoanPredictionInput) : PredictionResult where
  prediction := decisionFor (clampedScore w inp)
  probability := scoreToTprobability (clampedScore w inp)
  confidence := calculateConfidence (clampedScore w inp) inp
  score := mathRound (clampedScore w inp)
  reasons := generateReasons inp (clampedScore w inp) (decisionFor (clampedScore w inp))
  featureImportance := w
  riskFactors := identifyRiskFactors inp
  positiveFactors := identifyPositiveFactors inp

/-- The `predict` method: validate the input, then score it; a validation
failure surfaces as the list of offending fields. -/
noncomputable def predict (w : FeatureImportance) (inp : LoanPredictionInput) :
    Except (List String) PredictionResult :=
  match validateInput inp with
  | .error issues => .error issues
  | .ok validatedInput => .ok (predictValid w validatedInput)

/-- The `ModelMetrics` record; `lastTrained` is an epoch-millisecond stamp
(`recall` is spelled `recallRate` because `recall` is reserved in Lean). -/
structure ModelMetrics where
  accuracy : ℚ
  precision : ℚ
  recallRate : ℚ
  f1Score : ℚ
  lastTrained : ℤ
  trainingSize : ℚ
deriving DecidableEq, Repr

/-- One entry of the `thresholds` table of the service constructor. -/
structure ThresholdEntry where
  min : ℚ
  max : ℚ
  weight : ℚ
deriving DecidableEq, Repr

/-- The mutable state of a `LoanPredictionService` instance. -/
structure LoanPredictionService where
  modelWeights : FeatureImportance
  thresholds : List (String × ThresholdEntry)
  metrics : ModelMetrics

/-- The `predict` method as invoked on a service instance: it reads only
`this.modelWeights` from the state. -/
noncomputable def servicePredict (s : LoanPredictionService)
    (inp : LoanPredictionInput) : Except (List String) PredictionResult :=
  predict s.modelWeights inp

/-- The weight-adjustment loop of `retrainModel`: each weight moves by its
(random) adjustment and is floored at 0. -/
def applyWeightAdjustments (w a : FeatureImportance) : FeatureImportance where
  creditScore := max 0 (w.creditScore + a.creditScore)
  debtToIncome := max 0 (w.debtToIncome + a.debtToIncome)
  annualIncome := max 0 (w.annualIncome + a.annualIncome)
  employmentLength := max 0 (w.employmentLength + a.employmentLength)
  hasDerogatory := max 0 (w.hasDerogatory + a.hasDerogatory)
  delinquenciesLast2Years := max 0 (w.delinquenciesLast2Years + a.delinquenciesLast2Years)
  inquiriesLast6Months := max 0 (w.inquiriesLast6Months + a.inquiriesLast6Months)
  loanAmount := max 0 (w.loanAmount + a.loanAmount)
  homeOwnership := max 0 (w.homeOwnership + a.homeOwnership)
  verificationStatus := max 0 (w.verificationStatus + a.verificationStatus)

/-- The normalisation loop of `retrainModel`: divide every weight by the
total so the table sums to 1. -/
def normalizeWeights (w : FeatureImportance) : FeatureImportance where
  creditScore := w.creditScore / sumWeights w
  debtToIncome := w.debtToIncome / sumWeights w
  annualIncome := w.annualIncome / sumWeights w
  employmentLength := w.employmentLength / sumWeights w
  hasDerogatory := w.hasDerogatory / sumWeights w
  delinquenciesLast2Years := w.delinquenciesLast2Years / sumWeights w
  inquiriesLast6Months := w.inquiriesLast6Months / sumWeights w
  loanAmount := w.loanAmount / sumWeights w
  homeOwnership := w.homeOwnership / sumWeights w
  verificationStatus := w.verificationStatus / sumWeights w

/-- The weight update of `retrainModel`, parameterised by the outcome `a` of
its random per-key adjustments: floor-at-zero perturbation followed by
renormalisation. -/
def retrainWeights (w a : FeatureImportance) : FeatureImportance :=
  normalizeWeights (applyWeightAdjustments w a)

/-- Every weight of the table is non-negative. -/
def NonnegWeights (w : FeatureImportance) : Prop :=
  0 ≤ w.creditScore ∧ 0 ≤ w.debtToIncome ∧ 0 ≤ w.annualIncome ∧
  0 ≤ w.employmentLength ∧ 0 ≤ w.hasDerogatory ∧
  0 ≤ w.delinquenciesLast2Years ∧ 0 ≤ w.inquiriesLast6Months ∧
  0 ≤ w.loanAmount ∧ 0 ≤ w.homeOwnership ∧ 0 ≤ w.verificationStatus

instance : DecidablePred NonnegWeights := fun w => by
  unfold NonnegWeights; infer_instance

/-- Every random adjustment of `retrainModel` lies in
`[-weightAdjustment/2, weightAdjustment/2] = [-0.025, 0.025]`, since each is
`(Math.random() - 0.5) * 0.05`. -/
def BoundedAdjustments (a : FeatureImportance) : Prop :=
  |a.creditScore| ≤ 1/40 ∧ |a.debtToIncome| ≤ 1/40 ∧ |a.annualIncome| ≤ 1/40 ∧
  |a.employmentLength| ≤ 1/40 ∧ |a.hasDerogatory| ≤ 1/40 ∧
  |a.delinquenciesLast2Years| ≤ 1/40 ∧ |a.inquiriesLast6Months| ≤ 1/40 ∧
  |a.loanAmount| ≤ 1/40 ∧ |a.homeOwnership| ≤ 1/40 ∧ |a.verificationStatus| ≤ 1/40

instance : DecidablePred BoundedAdjustments := fun a => by
  unfold BoundedAdjustments; infer_instance

/-- The `confidenceDistribution` record of `calculateDrift`. -/
structure ConfidenceDistribution where
  high : ℚ
  medium : ℚ
  low : ℚ

/-- The record returned by `calculateDrift`. -/
structure DriftReport where
  approvalRate : ℚ
  averageScore : ℚ
  confidenceDistribution : ConfidenceDistribution
  needsRetraining : Bool

/-- The `calculateDrift` method.  The current time and the metrics'
`lastTrained` stamp (both epoch milliseconds) are explicit parameters,
standing for `new Date().getTime()` and `this.metrics.lastTrained`. -/
def calculateDrift (nowMs lastTrained : ℤ)
    (recentPredictions : List PredictionResult) : DriftReport :=
  if recentPredictions.length = 0 then
    { approvalRate := 0
      averageScore := 0
      confidenceDistribution := { high := 0, medium := 0, low := 0 }
      needsRetraining := false }
  else
    { approvalRate := driftApprovalRate recentPredictions
      averageScore :=
        ((recentPredictions.map (·.score)).sum : ℚ) / (recentPredictions.length : ℚ)
      confidenceDistribution :=
        { high := confidenceFraction .high recentPredictions
          medium := confidenceFraction .medium recentPredictions
          low := confidenceFraction .low recentPredictions }
      needsRetraining :=
        decide ((0.15 : ℚ) < |driftApprovalRate recentPredictions - 0.65|) ||
        decide ((0.3 : ℚ) < confidenceFraction .low recentPredictions) ||
        decide ((90 * 24 * 60 * 60 * 1000 : ℤ) < nowMs - lastTrained) }
where
  /-- Fraction of predictions whose decision is `approved`. -/
  driftApprovalRate (ps : List PredictionResult) : ℚ :=
    ((ps.filter (fun p => p.prediction == .approved)).length : ℚ) / (ps.length : ℚ)
  /-- Fraction of predictions with the given confidence tier. -/
  confidenceFraction (c : Confidence) (ps : List PredictionResult) : ℚ :=
    ((ps.filter (fun p => p.confidence == c)).length : ℚ) / (ps.length : ℚ)

/-- The nullable `loan_applications` row fields read by
`convertLoanApplicationToPredictionInput` (the `LoanApplication` row type
is generated Supabase code outside this repository; the fields and their
nullability are taken from the converter's own accesses). -/
structure LoanApplication where
  credit_score : Option ℚ
  annual_income : Option ℚ
  employment_length : Option ℚ
  loan_amount : Option ℚ
  loan_purpose : Option LoanPurpose
  monthly_debt_payment : Option ℚ
  has_derogatory : Option Bool
  delinquencies_last_2years : Option ℚ
  inquiries_last_6months : Option ℚ
  home_ownership : Option HomeOwnership
  verification_status : Option VerificationStatus
deriving DecidableEq, Repr

/-- JavaScript `value || fallback` on a nullable numeric column: `null`
and `0` are falsy and yield the fallback. -/
def numOr (v : Option ℚ) (fallback : ℚ) : ℚ :=
  match v with
  | none => fallback
  | some x => if x = 0 then fallback else x

/-- JavaScript truthiness of a nullable numeric column. -/
def truthyNum : Option ℚ → Bool
  | none => false
  | some x => if x = 0 then false else true

/-- The exported `convertLoanApplicationToPredictionInput` function:
substitute fixed defaults for missing or falsy columns, never fail. -/
def convertLoanApplicationToPredictionInput (application : LoanApplication) :
    LoanPredictionInput where
  creditScore := numOr application.credit_score 650
  annualIncome := numOr application.annual_income 50000
  employmentLength := numOr application.employment_length 0
  loanAmount := numOr application.loan_amount 10000
  loanPurpose := application.loan_purpose.getD .personal_loan
  debtToIncome :=
    if truthyNum application.monthly_debt_payment &&
       truthyNum application.annual_income then
      (application.monthly_debt_payment.getD 0 * 12) /
        application.annual_income.getD 0
    else 0
  hasDerogatory := application.has_derogatory.getD false
  delinquenciesLast2Years := numOr application.delinquencies_last_2years 0
  inquiriesLast6Months := numOr application.inquiries_last_6months 0
  homeOwnership := application.home_ownership.getD .rent
  verificationStatus := application.verification_status.getD .not_verified

/-- Concrete scenario A of the spec: a strong applicant. -/
def profileA : LoanPredictionInput where
  creditScore := 780
  annualIncome := 90000
  employmentLength := 6
  loanAmount := 15000
  loanPurpose := .personal_loan
  debtToIncome := 0.18
  hasDerogatory := false
  delinquenciesLast2Years := 0
  inquiriesLast6Months := 1
  homeOwnership := .own
  verificationStatus := .verified

/-- Concrete scenario B of the spec: a weak applicant. -/
def profileB : LoanPredictionInput where
  creditScore := 540
  annualIncome := 22000
  employmentLength := 0.5
  loanAmount := 20000
  loanPurpose := .personal_loan
  debtToIncome := 0.55
  hasDerogatory := true
  delinquenciesLast2Years := 3
  inquiriesLast6Months := 6
  homeOwnership := .rent
  verificationStatus := .not_verified

/-- A profile that satisfies every constraint of the spec's section 3 with
annual income exactly 0 (allowed by the spec's "non-negative real"). -/
def profileZeroIncome : LoanPredictionInput where
  creditScore := 650
  annualIncome := 0
  employmentLength := 1
  loanAmount := 5000
  loanPurpose := .personal_loan
  debtToIncome := 0.2
  hasDerogatory := false
  delinquenciesLast2Years := 0
  inquiriesLast6Months := 0
  homeOwnership := .rent
  verificationStatus := .not_verified

/-- A profile with an out-of-domain credit score of 851. -/
def profile851 : LoanPredictionInput where
  creditScore := 851
  annualIncome := 60000
  employmentLength := 3
  loanAmount := 10000
  loanPurpose := .personal_loan
  debtToIncome := 0.2
  hasDerogatory := false
  delinquenciesLast2Years := 0
  inquiriesLast6Months := 0
  homeOwnership := .rent
  verificationStatus := .not_verified

/-- The metrics record set in the service constructor (`lastTrained` is the
epoch-millisecond stamp of 2024-01-15T00:00:00Z). -/
def initialMetrics : ModelMetrics where
  accuracy := 0.87
  precision := 0.82
  recallRate := 0.91
  f1Score := 0.86
  lastTrained := 1705276800000
  trainingSize := 10000

/-- The thresholds table set in the service constructor. -/
def initialThresholds : List (String × ThresholdEntry) :=
  [("creditScore", ⟨580, 800, 1.0⟩),
   ("debtToIncome", ⟨0, 0.43, -1.0⟩),
   ("annualIncome", ⟨30000, 200000, 1.0⟩),
   ("employmentLength", ⟨2, 10, 1.0⟩),
   ("loanAmount", ⟨1000, 50000, -0.5⟩)]

/-- A freshly constructed service instance. -/
def freshService : LoanPredictionService where
  modelWeights := initialModelWeights
  thresholds := initialThresholds
  metrics := initialMetrics

/-- A service with the same weight table as `freshService` but different
metrics (as after a metrics-only update). -/
def retouchedService : LoanPredictionService where
  modelWeights := initialModelWeights
  thresholds := initialThresholds
  metrics := { initialMetrics with accuracy := 0.9, lastTrained := 1760140800000 }

/-- A concrete prediction result, used to exercise `calculateDrift`. -/
noncomputable def sampleResult : PredictionResult where
  prediction := .approved
  probability := scoreToTprobability 795
  confidence := .medium
  score := 795
  reasons := []
  featureImportance := initialModelWeights
  riskFactors := []
  positiveFactors := []

/-- A concrete adjustment outcome for `retrainModel`, every entry `1/100`. -/
def sampleAdjustments : FeatureImportance where
  creditScore := 1/100
  debtToIncome := 1/100
  annualIncome := 1/100
  employmentLength := 1/100
  hasDerogatory := 1/100
  delinquenciesLast2Years := 1/100
  inquiriesLast6Months := 1/100
  loanAmount := 1/100
  homeOwnership := 1/100
  verificationStatus := 1/100

/-- A loan-application row with every nullable column `null`. -/
def emptyApplication : LoanApplication where
  credit_score := none
  annual_income := none
  employment_length := none
  loan_amount := none
  loan_purpose := none
  monthly_debt_payment := none
  has_derogatory := none
  delinquencies_last_2years := none
  inquiries_last_6months := none
  home_ownership := none
  verification_status := none

/-- Modelled from the spec: the input domain declared by section 3 of the
spec (for comparison against the code's schema): credit score an integer in
300–850, annual income a non-negative real, employment length non-negative,
loan amount positive, DTI in [0, 1], non-negative integer delinquency and
inquiry counts; the three enumerated fields are typed.  This follows the
spec's words, not the code. -/
def SpecSection3Domain (inp : LoanPredictionInput) : Prop :=
  (∃ n : ℤ, inp.creditScore = n) ∧
  300 ≤ inp.creditScore ∧ inp.creditScore ≤ 850 ∧
  0 ≤ inp.annualIncome ∧ 0 ≤ inp.employmentLength ∧ 0 < inp.loanAmount ∧
  0 ≤ inp.debtToIncome ∧ inp.debtToIncome ≤ 1 ∧
  (∃ n : ℤ, inp.delinquenciesLast2Years = n) ∧
  0 ≤ inp.delinquenciesLast2Years ∧
  (∃ n : ℤ, inp.inquiriesLast6Months = n) ∧ 0 ≤ inp.inquiriesLast6Months

/-!  Helper lemmas about the sigmoid and the decision threshold. -/

theorem scoreToTprobability_pos (s : ℚ) : 0 < scoreToTprobability s := by
  unfold scoreToTprobability
  positivity

theorem scoreToTprobability_le_one (s : ℚ) : scoreToTprobability s ≤ 1 := by
  unfold scoreToTprobability
  rw [div_le_one (by positivity)]
  linarith [Real.exp_pos (-(((s : ℝ) - 650) / 200))]

theorem half_le_scoreToTprobability_iff (s : ℚ) :
    (0.5 : ℝ) ≤ scoreToTprobability s ↔ 650 ≤ s := by
  unfold scoreToTprobability
  have hpos : (0 : ℝ) < 1 + Real.exp (-(((s : ℝ) - 650) / 200)) := by positivity
  rw [le_div_iff₀ hpos]
  constructor
  · intro h
    have h1 : Real.exp (-(((s : ℝ) - 650) / 200)) ≤ 1 := by linarith
    have h2 := Real.exp_le_one_iff.mp h1
    have h3 : (650 : ℝ) ≤ (s : ℝ) := by linarith
    exact_mod_cast h3
  · intro h
    have h3 : (650 : ℝ) ≤ (s : ℝ) := by exact_mod_cast h
    have h2 : -(((s : ℝ) - 650) / 200) ≤ 0 := by linarith
    have h1 := Real.exp_le_one_iff.mpr h2
    linarith

theorem scoreToTprobability_650 : scoreToTprobability 650 = 1 / 2 := by
  unfold scoreToTprobability
  norm_num [Real.exp_zero]

theorem decisionFor_eq (s : ℚ) :
    decisionFor s = if 650 ≤ s then Decision.approved else Decision.denied := by
  unfold decisionFor
  by_cases h : 650 ≤ s
  · rw [if_pos ((half_le_scoreToTprobability_iff s).mpr h), if_pos h]
  · rw [if_neg fun hc => h ((half_le_scoreToTprobability_iff s).mp hc), if_neg h]

theorem decisionFor_eq_approved_iff (s : ℚ) :
    decisionFor s = Decision.approved ↔ 650 ≤ s := by
  rw [decisionFor_eq]
  split_ifs with h <;> simp [h]

/-!  Helper lemmas about validation. -/

theorem ite_nil_eq_nil {c : Prop} [Decidable c] {s : String} :
    ((if c then ([] : List String) else [s]) = []) ↔ c := by
  split_ifs with h <;> simp [h]

theorem validInput_iff (inp : LoanPredictionInput) :
    ValidInput inp ↔
      300 ≤ inp.creditScore ∧ inp.creditScore ≤ 850 ∧
      0 < inp.annualIncome ∧ 0 ≤ inp.employmentLength ∧ 0 < inp.loanAmount ∧
      0 ≤ inp.debtToIncome ∧ inp.debtToIncome ≤ 1 ∧
      0 ≤ inp.delinquenciesLast2Years ∧ 0 ≤ inp.inquiriesLast6Months := by
  unfold ValidInput fieldIssues
  simp only [List.append_eq_nil, ite_nil_eq_nil]
  tauto

/-!  Helper lemmas about clamping, rounding and monotonicity. -/

theorem clamp_mono {x y : ℚ} (h : x ≤ y) :
    max 0 (min 1000 x) ≤ max 0 (min 1000 y) :=
  max_le_max le_rfl (min_le_min le_rfl h)

theorem mathRound_mono {x y : ℚ} (h : x ≤ y) : mathRound x ≤ mathRound y :=
  Int.floor_le_floor (by linarith)

theorem clampedScore_nonneg (w : FeatureImportance) (inp : LoanPredictionInput) :
    0 ≤ clampedScore w inp :=
  le_max_left 0 _

theorem clampedScore_le_1000 (w : FeatureImportance) (inp : LoanPredictionInput) :
    clampedScore w inp ≤ 1000 :=
  max_le (by norm_num) (min_le_left _ _)

theorem calculateCreditScoreComponent_mono {a b : ℚ} (h : a ≤ b) :
    calculateCreditScoreComponent a ≤ calculateCreditScoreComponent b := by
  unfold calculateCreditScoreComponent
  split_ifs <;> norm_num <;> linarith

theorem calculateDebtToIncomeComponent_anti {a b : ℚ} (h : a ≤ b) :
    calculateDebtToIncomeComponent b ≤ calculateDebtToIncomeComponent a := by
  unfold calculateDebtToIncomeComponent
  split_ifs <;> norm_num <;> linarith

theorem rawScore_credit_mono (p : LoanPredictionInput) {a b : ℚ} (h : a ≤ b) :
    rawScore initialModelWeights { p with creditScore := a } ≤
      rawScore initialModelWeights { p with creditScore := b } := by
  have hc := calculateCreditScoreComponent_mono h
  simp only [rawScore, initialModelWeights]
  linarith

theorem rawScore_delinquencies_anti (p : LoanPredictionInput) {a b : ℚ} (h : a ≤ b) :
    rawScore initialModelWeights { p with delinquenciesLast2Years := b } ≤
      rawScore initialModelWeights { p with delinquenciesLast2Years := a } := by
  simp only [rawScore, initialModelWeights]
  linarith

theorem rawScore_dti_anti (p : LoanPredictionInput) {a b : ℚ} (h : a ≤ b) :
    rawScore initialModelWeights { p with debtToIncome := b } ≤
      rawScore initialModelWeights { p with debtToIncome := a } := by
  have hc := calculateDebtToIncomeComponent_anti h
  simp only [rawScore, initialModelWeights]
  linarith

/-!  Helper lemmas about the weight table. -/

theorem sumWeights_initial : sumWeights initialModelWeights = 101 / 100 := by
  norm_num [sumWeights, initialModelWeights]

theorem sumWeights_normalize (w : FeatureImportance) (h : sumWeights w ≠ 0) :
    sumWeights (normalizeWeights w) = 1 := by
  simp only [sumWeights, normalizeWeights] at *
  field_simp

theorem sumWeights_applyAdjustments_ge (w a : FeatureImportance)
    (hw : 1 ≤ sumWeights w) (ha : BoundedAdjustments a) :
    3 / 4 ≤ sumWeights (applyWeightAdjustments w a) := by
  obtain ⟨h1, h2, h3, h4, h5, h6, h7, h8, h9, h10⟩ := ha
  rw [abs_le] at h1 h2 h3 h4 h5 h6 h7 h8 h9 h10
  simp only [sumWeights, applyWeightAdjustments] at *
  have m1 := le_max_right (0 : ℚ) (w.creditScore + a.creditScore)
  have m2 := le_max_right (0 : ℚ) (w.debtToIncome + a.debtToIncome)
  have m3 := le_max_right (0 : ℚ) (w.annualIncome + a.annualIncome)
  have m4 := le_max_right (0 : ℚ) (w.employmentLength + a.employmentLength)
  have m5 := le_max_right (0 : ℚ) (w.hasDerogatory + a.hasDerogatory)
  have m6 := le_max_right (0 : ℚ) (w.delinquenciesLast2Years + a.delinquenciesLast2Years)
  have m7 := le_max_right (0 : ℚ) (w.inquiriesLast6Months + a.inquiriesLast6Months)
  have m8 := le_max_right (0 : ℚ) (w.loanAmount + a.loanAmount)
  have m9 := le_max_right (0 : ℚ) (w.homeOwnership + a.homeOwnership)
  have m10 := le_max_right (0 : ℚ) (w.verificationStatus + a.verificationStatus)
  linarith

theorem profileA_valid : ValidInput profileA := by
  norm_num [ValidInput, fieldIssues, profileA]

theorem profileB_valid : ValidInput profileB := by
  norm_num [ValidInput, fieldIssues, profileB]

/-!  Claim theorems. -/

/-- C1: for every valid profile, the decision is `approved` iff the computed
probability is at least 0.5; since the probability is the sigmoid
`1 / (1 + exp (-(score - 650) / 200))`, that is equivalent to the unrounded
clamped score being at least 650; and a profile whose score is exactly 650
has probability exactly 1/2 and decision `approved`. -/
theorem C1_decision_threshold (inp : LoanPredictionInput) (_hv : ValidInput inp) :
    ((predictValid initialModelWeights inp).prediction = Decision.approved ↔
      (0.5 : ℝ) ≤ (predictValid initialModelWeights inp).probability) ∧
    ((0.5 : ℝ) ≤ (predictValid initialModelWeights inp).probability ↔
      650 ≤ clampedScore initialModelWeights inp) ∧
    (clampedScore initialModelWeights inp = 650 →
      (predictValid initialModelWeights inp).probability = 1 / 2 ∧
      (predictValid initialModelWeights inp).prediction = Decision.approved) := by
  have hpred : (predictValid initialModelWeights inp).prediction =
      decisionFor (clampedScore initialModelWeights inp) := rfl
  have hprob : (predictValid initialModelWeights inp).probability =
      scoreToTprobability (clampedScore initialModelWeights inp) := rfl
  refine ⟨?_, ?_, ?_⟩
  · rw [hpred, hprob, decisionFor_eq_approved_iff, half_le_scoreToTprobability_iff]
  · rw [hprob, half_le_scoreToTprobability_iff]
  · intro h650
    rw [hpred, hprob, h650]
    exact ⟨scoreToTprobability_650, by rw [decisionFor_eq]; norm_num⟩

/-- Witness for C1 at the concrete scenario-A profile. -/
theorem C1_decision_threshold_witness :
    ValidInput profileA ∧
    (((predictValid initialModelWeights profileA).prediction = Decision.approved ↔
       (0.5 : ℝ) ≤ (predictValid initialModelWeights profileA).probability) ∧
     ((0.5 : ℝ) ≤ (predictValid initialModelWeights profileA).probability ↔
       650 ≤ clampedScore initialModelWeights profileA) ∧
     (clampedScore initialModelWeights profileA = 650 →
       (predictValid initialModelWeights profileA).probability = 1 / 2 ∧
       (predictValid initialModelWeights profileA).prediction = Decision.approved)) :=
  ⟨profileA_valid, C1_decision_threshold profileA profileA_valid⟩

/-- C3: for every valid profile, the clamped score and the returned rounded
score lie in [0, 1000], and the returned probability lies in [0, 1]. -/
theorem C3_output_bounds (inp : LoanPredictionInput) (_hv : ValidInput inp) :
    0 ≤ clampedScore initialModelWeights inp ∧
    clampedScore initialModelWeights inp ≤ 1000 ∧
    0 ≤ (predictValid initialModelWeights inp).score ∧
    (predictValid initialModelWeights inp).score ≤ 1000 ∧
    0 ≤ (predictValid initialModelWeights inp).probability ∧
    (predictValid initialModelWeights inp).probability ≤ 1 := by
  have hsc : (predictValid initialModelWeights inp).score =
      mathRound (clampedScore initialModelWeights inp) := rfl
  have hprob : (predictValid initialModelWeights inp).probability =
      scoreToTprobability (clampedScore initialModelWeights inp) := rfl
  have h0 := clampedScore_nonneg initialModelWeights inp
  have h1 := clampedScore_le_1000 initialModelWeights inp
  refine ⟨h0, h1, ?_, ?_, ?_, ?_⟩
  · rw [hsc]; unfold mathRound
    exact Int.le_floor.mpr (by push_cast; linarith)
  · rw [hsc]; unfold mathRound
    have hlt : (⌊clampedScore initialModelWeights inp + 1 / 2⌋ : ℤ) < 1001 :=
      Int.floor_lt.mpr (by push_cast; linarith)
    omega
  · rw [hprob]; exact (scoreToTprobability_pos _).le
  · rw [hprob]; exact scoreToTprobability_le_one _

/-- Witness for C3 at the concrete scenario-A profile. -/
theorem C3_output_bounds_witness :
    ValidInput profileA ∧
    (0 ≤ clampedScore initialModelWeights profileA ∧
     clampedScore initialModelWeights profileA ≤ 1000 ∧
     0 ≤ (predictValid initialModelWeights profileA).score ∧
     (predictValid initialModelWeights profileA).score ≤ 1000 ∧
     0 ≤ (predictValid initialModelWeights profileA).probability ∧
     (predictValid initialModelWeights profileA).probability ≤ 1) :=
  ⟨profileA_valid, C3_output_bounds profileA profileA_valid⟩

/-- C5 counterexample: the initial weight table sums to 1.01, not to 1.0
(0.35 + 0.25 + 0.15 + 0.08 + 0.07 + 0.05 + 0.03 + 0.02 + 0.005 + 0.005 =
1.01). -/
theorem C5_initial_sum_counterexample :
    sumWeights initialModelWeights = 101 / 100 ∧
    sumWeights initialModelWeights ≠ 1 := by
  refine ⟨sumWeights_initial, ?_⟩
  rw [sumWeights_initial]; norm_num

/-- C5 amended: the initial weights sum to 1.01 (not 1.0); and for a weight
table summing to 1.01 or to 1 with non-negative entries, any retrain call
with its random per-key adjustments (each bounded by 0.025 in magnitude)
renormalizes the table to sum exactly to 1. -/
theorem C5_weights_sum (w a : FeatureImportance) (_hw : NonnegWeights w)
    (hsum : sumWeights w = 101 / 100 ∨ sumWeights w = 1)
    (ha : BoundedAdjustments a) :
    sumWeights initialModelWeights = 101 / 100 ∧
    sumWeights (retrainWeights w a) = 1 := by
  refine ⟨sumWeights_initial, ?_⟩
  have h1 : 1 ≤ sumWeights w := by
    rcases hsum with h | h <;> norm_num [h]
  have h2 := sumWeights_applyAdjustments_ge w a h1 ha
  unfold retrainWeights
  exact sumWeights_normalize _ (by linarith)

/-- Witness for C5 at the initial weight table with all adjustments 1/100. -/
theorem C5_weights_sum_witness :
    (NonnegWeights initialModelWeights ∧
     (sumWeights initialModelWeights = 101 / 100 ∨
       sumWeights initialModelWeights = 1) ∧
     BoundedAdjustments sampleAdjustments) ∧
    (sumWeights initialModelWeights = 101 / 100 ∧
     sumWeights (retrainWeights initialModelWeights sampleAdjustments) = 1) := by
  have hnn : NonnegWeights initialModelWeights := by
    norm_num [NonnegWeights, initialModelWeights]
  have hba : BoundedAdjustments sampleAdjustments := by
    norm_num [BoundedAdjustments, sampleAdjustments, abs_le]
  exact ⟨⟨hnn, Or.inl sumWeights_initial, hba⟩,
    C5_weights_sum _ _ hnn (Or.inl sumWeights_initial) hba⟩

/-- C8: prediction is deterministic and depends only on the input profile
and the weight table: two service states with equal weight tables (whatever
their metrics or thresholds) map equal inputs to equal results, in every
field. -/
theorem C8_predict_deterministic (s₁ s₂ : LoanPredictionService)
    (inp₁ inp₂ : LoanPredictionInput)
    (hw : s₁.modelWeights = s₂.modelWeights) (hinp : inp₁ = inp₂) :
    servicePredict s₁ inp₁ = servicePredict s₂ inp₂ := by
  unfold servicePredict
  rw [hw, hinp]

/-- Witness for C8: a fresh service and one with updated metrics but the
same weight table score scenario A identically. -/
theorem C8_predict_deterministic_witness :
    (freshService.modelWeights = retouchedService.modelWeights ∧
     freshService.metrics.accuracy ≠ retouchedService.metrics.accuracy) ∧
    servicePredict freshService profileA =
      servicePredict retouchedService profileA :=
  ⟨⟨rfl, by norm_num [freshService, retouchedService, initialMetrics]⟩,
   C8_predict_deterministic _ _ _ _ rfl rfl⟩

/-- C2 counterexample: a profile inside every section-3 domain of the spec
with annual income exactly 0 is rejected by the schema (which requires a
strictly positive income), with a ValidationError citing `annualIncome` —
the claim says it must be scored successfully. -/
theorem C2_zero_income_counterexample :
    SpecSection3Domain profileZeroIncome ∧
    profileZeroIncome.annualIncome = 0 ∧
    predict initialModelWeights profileZeroIncome = .error ["annualIncome"] := by
  refine ⟨⟨⟨650, ?_⟩, ?_, ?_, ?_, ?_, ?_, ?_, ?_, ⟨0, ?_⟩, ?_, ⟨0, ?_⟩, ?_⟩,
      rfl, ?_⟩ <;>
    norm_num [predict, validateInput, fieldIssues, profileZeroIncome]

/-- C2 amended: `predict` fails with a ValidationError exactly when some
field is outside the domain the schema actually enforces — credit score a
real in [300, 850] (integrality is not checked), annual income strictly
positive (so an income of 0 is rejected), employment length non-negative,
loan amount positive, DTI in [0, 1], non-negative delinquency and inquiry
counts — and otherwise returns the scored result; a credit score of 851 is
reported as an issue on the `creditScore` field, not clamped. -/
theorem C2_validation (w : FeatureImportance) (inp : LoanPredictionInput) :
    (ValidInput inp ↔
      300 ≤ inp.creditScore ∧ inp.creditScore ≤ 850 ∧
      0 < inp.annualIncome ∧ 0 ≤ inp.employmentLength ∧ 0 < inp.loanAmount ∧
      0 ≤ inp.debtToIncome ∧ inp.debtToIncome ≤ 1 ∧
      0 ≤ inp.delinquenciesLast2Years ∧ 0 ≤ inp.inquiriesLast6Months) ∧
    (ValidInput inp → predict w inp = .ok (predictValid w inp)) ∧
    (¬ ValidInput inp →
      predict w inp = .error (fieldIssues inp) ∧ fieldIssues inp ≠ []) ∧
    (inp.creditScore = 851 → "creditScore" ∈ fieldIssues inp) := by
  refine ⟨validInput_iff inp, ?_, ?_, ?_⟩
  · intro hv
    have hv' : fieldIssues inp = [] := hv
    unfold predict validateInput
    rw [if_pos hv']
  · intro hv
    have hv' : ¬ fieldIssues inp = [] := hv
    unfold predict validateInput
    rw [if_neg hv']
    exact ⟨rfl, hv'⟩
  · intro h851
    unfold fieldIssues
    rw [h851]
    norm_num

/-- Witness for C2: scenario A validates and is scored; the zero-income
profile is rejected with a non-empty issue list; the 851 profile's issues
cite `creditScore`. -/
theorem C2_validation_witness :
    (ValidInput profileA ∧
      predict initialModelWeights profileA =
        .ok (predictValid initialModelWeights profileA)) ∧
    (¬ ValidInput profileZeroIncome ∧
      predict initialModelWeights profileZeroIncome =
        .error (fieldIssues profileZeroIncome) ∧
      fieldIssues profileZeroIncome ≠ []) ∧
    (profile851.creditScore = 851 ∧ "creditScore" ∈ fieldIssues profile851) := by
  have hinv : ¬ ValidInput profileZeroIncome := by
    norm_num [ValidInput, fieldIssues, profileZeroIncome]
  exact ⟨⟨profileA_valid,
      (C2_validation initialModelWeights profileA).2.1 profileA_valid⟩,
    ⟨hinv, (C2_validation initialModelWeights profileZeroIncome).2.2.1 hinv⟩,
    ⟨rfl, (C2_validation initialModelWeights profile851).2.2.2 rfl⟩⟩

/-- C6 counterexample: for the scenario-B profile the risk-factor list does
NOT contain the string "Derogatory marks on credit report raise concerns" —
that string is produced in the `reasons` list; the risk-factor list carries
"Derogatory credit marks" instead. -/
theorem C6_riskFactors_counterexample :
    "Derogatory marks on credit report raise concerns" ∉
      (predictValid initialModelWeights profileB).riskFactors := by
  have h : (predictValid initialModelWeights profileB).riskFactors =
      identifyRiskFactors profileB := rfl
  rw [h]
  norm_num [identifyRiskFactors, profileB]
  decide

/-- C6 amended: for the scenario-B profile, `predict` returns decision
`denied`, its risk-factor list has more than one entry, and the string
"Derogatory marks on credit report raise concerns" appears in the returned
`reasons` list (not in the risk-factor list). -/
theorem C6_scenarioB :
    ValidInput profileB ∧
    (predictValid initialModelWeights profileB).prediction = Decision.denied ∧
    1 < (predictValid initialModelWeights profileB).riskFactors.length ∧
    "Derogatory marks on credit report raise concerns" ∈
      (predictValid initialModelWeights profileB).reasons := by
  have hraw : rawScore initialModelWeights profileB = -5780 := by
    norm_num [rawScore, initialModelWeights, profileB,
      calculateCreditScoreComponent, calculateDebtToIncomeComponent,
      calculateIncomeComponent, calculateEmploymentComponent,
      calculateLoanAmountComponent, calculateHomeOwnershipBonus,
      calculateVerificationBonus]
  have hcl : clampedScore initialModelWeights profileB = 0 := by
    rw [clampedScore, hraw, min_eq_right (by norm_num), max_eq_left (by norm_num)]
  have hdec : decisionFor (clampedScore initialModelWeights profileB) =
      Decision.denied := by
    rw [hcl, decisionFor_eq]; norm_num
  refine ⟨profileB_valid, hdec, ?_, ?_⟩
  · show 1 < (identifyRiskFactors profileB).length
    norm_num [identifyRiskFactors, profileB]
  · show _ ∈ generateReasons profileB (clampedScore initialModelWeights profileB)
      (decisionFor (clampedScore initialModelWeights profileB))
    rw [hdec]
    norm_num [generateReasons, profileB]

/-- C7: for the scenario-A profile, `predict` returns decision `approved`,
a rounded score strictly greater than 700 (the score is 795), and
confidence `medium` (hence high-or-medium). -/
theorem C7_scenarioA :
    ValidInput profileA ∧
    (predictValid initialModelWeights profileA).prediction = Decision.approved ∧
    700 < (predictValid initialModelWeights profileA).score ∧
    ((predictValid initialModelWeights profileA).confidence = Confidence.high ∨
     (predictValid initialModelWeights profileA).confidence = Confidence.medium) := by
  have hraw : rawScore initialModelWeights profileA = 795 := by
    norm_num [rawScore, initialModelWeights, profileA,
      calculateCreditScoreComponent, calculateDebtToIncomeComponent,
      calculateIncomeComponent, calculateEmploymentComponent,
      calculateLoanAmountComponent, calculateHomeOwnershipBonus,
      calculateVerificationBonus]
  have hcl : clampedScore initialModelWeights profileA = 795 := by
    rw [clampedScore, hraw, min_eq_right (by norm_num), max_eq_right (by norm_num)]
  refine ⟨profileA_valid, ?_, ?_, ?_⟩
  · show decisionFor (clampedScore initialModelWeights profileA) = _
    rw [hcl, decisionFor_eq]; norm_num
  · show 700 < mathRound (clampedScore initialModelWeights profileA)
    rw [hcl]; unfold mathRound; norm_num
  · right
    show calculateConfidence (clampedScore initialModelWeights profileA) profileA = _
    rw [hcl]
    norm_num [calculateConfidence, calculateConfidence.confBand, profileA]

/-- C4: single-field monotonicity of the returned score: raising only the
credit score never lowers the score, raising only the delinquency count
never raises it, raising only the debt-to-income ratio never raises it;
and for any base profile the 750-credit variant scores at least the
749-credit variant. -/
theorem C4_monotonicity (p : LoanPredictionInput) (c₁ c₂ d₁ d₂ t₁ t₂ : ℚ) :
    (ValidInput { p with creditScore := c₁ } →
      ValidInput { p with creditScore := c₂ } → c₁ ≤ c₂ →
      (predictValid initialModelWeights { p with creditScore := c₁ }).score ≤
        (predictValid initialModelWeights { p with creditScore := c₂ }).score) ∧
    (ValidInput { p with delinquenciesLast2Years := d₁ } →
      ValidInput { p with delinquenciesLast2Years := d₂ } → d₁ ≤ d₂ →
      (predictValid initialModelWeights
          { p with delinquenciesLast2Years := d₂ }).score ≤
        (predictValid initialModelWeights
          { p with delinquenciesLast2Years := d₁ }).score) ∧
    (ValidInput { p with debtToIncome := t₁ } →
      ValidInput { p with debtToIncome := t₂ } → t₁ ≤ t₂ →
      (predictValid initialModelWeights { p with debtToIncome := t₂ }).score ≤
        (predictValid initialModelWeights { p with debtToIncome := t₁ }).score) ∧
    ((predictValid initialModelWeights { p with creditScore := 749 }).score ≤
      (predictValid initialModelWeights { p with creditScore := 750 }).score) := by
  refine ⟨?_, ?_, ?_, ?_⟩
  · intro _ _ h
    exact mathRound_mono (clamp_mono (rawScore_credit_mono p h))
  · intro _ _ h
    exact mathRound_mono (clamp_mono (rawScore_delinquencies_anti p h))
  · intro _ _ h
    exact mathRound_mono (clamp_mono (rawScore_dti_anti p h))
  · exact mathRound_mono (clamp_mono (rawScore_credit_mono p (by norm_num)))

/-- Witness for C4 at concrete variants of the scenario-A profile. -/
theorem C4_monotonicity_witness :
    (ValidInput { profileA with creditScore := 700 } ∧
     ValidInput { profileA with creditScore := 760 } ∧ (700 : ℚ) ≤ 760 ∧
     (predictValid initialModelWeights { profileA with creditScore := 700 }).score ≤
       (predictValid initialModelWeights { profileA with creditScore := 760 }).score) ∧
    (ValidInput { profileA with delinquenciesLast2Years := 1 } ∧
     ValidInput { profileA with delinquenciesLast2Years := 4 } ∧ (1 : ℚ) ≤ 4 ∧
     (predictValid initialModelWeights
         { profileA with delinquenciesLast2Years := 4 }).score ≤
       (predictValid initialModelWeights
         { profileA with delinquenciesLast2Years := 1 }).score) ∧
    (ValidInput { profileA with debtToIncome := 0.2 } ∧
     ValidInput { profileA with debtToIncome := 0.5 } ∧ (0.2 : ℚ) ≤ 0.5 ∧
     (predictValid initialModelWeights { profileA with debtToIncome := 0.5 }).score ≤
       (predictValid initialModelWeights { profileA with debtToIncome := 0.2 }).score) ∧
    ((predictValid initialModelWeights { profileA with creditScore := 749 }).score ≤
      (predictValid initialModelWeights { profileA with creditScore := 750 }).score) := by
  have h := C4_monotonicity profileA 700 760 1 4 0.2 0.5
  have hc1 : ValidInput { profileA with creditScore := 700 } := by
    norm_num [ValidInput, fieldIssues, profileA]
  have hc2 : ValidInput { profileA with creditScore := 760 } := by
    norm_num [ValidInput, fieldIssues, profileA]
  have hd1 : ValidInput { profileA with delinquenciesLast2Years := 1 } := by
    norm_num [ValidInput, fieldIssues, profileA]
  have hd2 : ValidInput { profileA with delinquenciesLast2Years := 4 } := by
    norm_num [ValidInput, fieldIssues, profileA]
  have ht1 : ValidInput { profileA with debtToIncome := 0.2 } := by
    norm_num [ValidInput, fieldIssues, profileA]
  have ht2 : ValidInput { profileA with debtToIncome := 0.5 } := by
    norm_num [ValidInput, fieldIssues, profileA]
  exact ⟨⟨hc1, hc2, by norm_num, h.1 hc1 hc2 (by norm_num)⟩,
    ⟨hd1, hd2, by norm_num, h.2.1 hd1 hd2 (by norm_num)⟩,
    ⟨ht1, ht2, by norm_num, h.2.2.1 ht1 ht2 (by norm_num)⟩,
    h.2.2.2⟩

/-- C9: the loan-application converter is total and silently substitutes
fixed defaults for missing or falsy columns: null/zero credit score becomes
650, annual income 50000, employment length 0, loan amount 10000, loan
purpose `personal_loan`, home ownership `rent`, verification
`not_verified`; a missing monthly debt payment or annual income yields
debt-to-income 0. -/
theorem C9_convert_defaults (application : LoanApplication) :
    (application.credit_score = none ∨ application.credit_score = some 0 →
      (convertLoanApplicationToPredictionInput application).creditScore = 650) ∧
    (application.annual_income = none ∨ application.annual_income = some 0 →
      (convertLoanApplicationToPredictionInput application).annualIncome = 50000) ∧
    (application.employment_length = none →
      (convertLoanApplicationToPredictionInput application).employmentLength = 0) ∧
    (application.loan_amount = none ∨ application.loan_amount = some 0 →
      (convertLoanApplicationToPredictionInput application).loanAmount = 10000) ∧
    (application.loan_purpose = none →
      (convertLoanApplicationToPredictionInput application).loanPurpose =
        LoanPurpose.personal_loan) ∧
    (application.home_ownership = none →
      (convertLoanApplicationToPredictionInput application).homeOwnership =
        HomeOwnership.rent) ∧
    (application.verification_status = none →
      (convertLoanApplicationToPredictionInput application).verificationStatus =
        VerificationStatus.not_verified) ∧
    (application.monthly_debt_payment = none ∨ application.annual_income = none →
      (convertLoanApplicationToPredictionInput application).debtToIncome = 0) := by
  refine ⟨?_, ?_, ?_, ?_, ?_, ?_, ?_, ?_⟩
  · rintro (h | h) <;>
      simp [convertLoanApplicationToPredictionInput, numOr, h]
  · rintro (h | h) <;>
      simp [convertLoanApplicationToPredictionInput, numOr, h]
  · intro h
    simp [convertLoanApplicationToPredictionInput, numOr, h]
  · rintro (h | h) <;>
      simp [convertLoanApplicationToPredictionInput, numOr, h]
  · intro h
    simp [convertLoanApplicationToPredictionInput, h]
  · intro h
    simp [convertLoanApplicationToPredictionInput, h]
  · intro h
    simp [convertLoanApplicationToPredictionInput, h]
  · rintro (h | h) <;>
      simp [convertLoanApplicationToPredictionInput, truthyNum, h]

/-- Witness for C9 at the all-null application row. -/
theorem C9_convert_defaults_witness :
    ((convertLoanApplicationToPredictionInput emptyApplication).creditScore = 650) ∧
    ((convertLoanApplicationToPredictionInput emptyApplication).annualIncome = 50000) ∧
    ((convertLoanApplicationToPredictionInput emptyApplication).employmentLength = 0) ∧
    ((convertLoanApplicationToPredictionInput emptyApplication).loanAmount = 10000) ∧
    ((convertLoanApplicationToPredictionInput emptyApplication).loanPurpose =
      LoanPurpose.personal_loan) ∧
    ((convertLoanApplicationToPredictionInput emptyApplication).homeOwnership =
      HomeOwnership.rent) ∧
    ((convertLoanApplicationToPredictionInput emptyApplication).verificationStatus =
      VerificationStatus.not_verified) ∧
    ((convertLoanApplicationToPredictionInput emptyApplication).debtToIncome = 0) := by
  have h := C9_convert_defaults emptyApplication
  exact ⟨h.1 (Or.inl rfl), h.2.1 (Or.inl rfl), h.2.2.1 rfl,
    h.2.2.2.1 (Or.inl rfl), h.2.2.2.2.1 rfl, h.2.2.2.2.2.1 rfl,
    h.2.2.2.2.2.2.1 rfl, h.2.2.2.2.2.2.2 (Or.inl rfl)⟩

/-- C10: `calculateDrift` is total; on the empty list it returns all-zero
rates and `needsRetraining = false`; on a non-empty list the approval rate
and each confidence fraction lie in [0, 1]. -/
theorem C10_drift (nowMs lastTrained : ℤ) (ps : List PredictionResult)
    (h : ps ≠ []) :
    calculateDrift nowMs lastTrained [] =
      { approvalRate := 0
        averageScore := 0
        confidenceDistribution := { high := 0, medium := 0, low := 0 }
        needsRetraining := false } ∧
    (0 ≤ (calculateDrift nowMs lastTrained ps).approvalRate ∧
      (calculateDrift nowMs lastTrained ps).approvalRate ≤ 1) ∧
    (0 ≤ (calculateDrift nowMs lastTrained ps).confidenceDistribution.high ∧
      (calculateDrift nowMs lastTrained ps).confidenceDistribution.high ≤ 1) ∧
    (0 ≤ (calculateDrift nowMs lastTrained ps).confidenceDistribution.medium ∧
      (calculateDrift nowMs lastTrained ps).confidenceDistribution.medium ≤ 1) ∧
    (0 ≤ (calculateDrift nowMs lastTrained ps).confidenceDistribution.low ∧
      (calculateDrift nowMs lastTrained ps).confidenceDistribution.low ≤ 1) := by
  have hlen : ps.length ≠ 0 := fun hc => h (List.length_eq_zero.mp hc)
  have hpos : (0 : ℚ) < (ps.length : ℚ) := by
    exact_mod_cast Nat.pos_of_ne_zero hlen
  have frac : ∀ f : PredictionResult → Bool,
      0 ≤ ((ps.filter f).length : ℚ) / (ps.length : ℚ) ∧
        ((ps.filter f).length : ℚ) / (ps.length : ℚ) ≤ 1 := by
    intro f
    constructor
    · positivity
    · rw [div_le_one hpos]
      exact_mod_cast List.length_filter_le f ps
  refine ⟨rfl, ?_, ?_, ?_, ?_⟩ <;>
    · simp only [calculateDrift, calculateDrift.driftApprovalRate,
        calculateDrift.confidenceFraction, if_neg hlen]
      exact frac _

/-- Witness for C10 on a concrete one-element prediction list. -/
theorem C10_drift_witness :
    ([sampleResult] ≠ ([] : List PredictionResult)) ∧
    (calculateDrift 0 0 [] =
      { approvalRate := 0
        averageScore := 0
        confidenceDistribution := { high := 0, medium := 0, low := 0 }
        needsRetraining := false } ∧
    (0 ≤ (calculateDrift 0 0 [sampleResult]).approvalRate ∧
      (calculateDrift 0 0 [sampleResult]).approvalRate ≤ 1) ∧
    (0 ≤ (calculateDrift 0 0 [sampleResult]).confidenceDistribution.high ∧
      (calculateDrift 0 0 [sampleResult]).confidenceDistribution.high ≤ 1) ∧
    (0 ≤ (calculateDrift 0 0 [sampleResult]).confidenceDistribution.medium ∧
      (calculateDrift 0 0 [sampleResult]).confidenceDistribution.medium ≤ 1) ∧
    (0 ≤ (calculateDrift 0 0 [sampleResult]).confidenceDistribution.low ∧
      (calculateDrift 0 0 [sampleResult]).confidenceDistribution.low ≤ 1)) :=
  ⟨List.cons_ne_nil _ _, C10_drift 0 0 [sampleResult] (List.cons_ne_nil _ _)⟩

end LoanPredictor
